import Mathlib

/-!
Shallow embedding of `population-pyramid-generator.py`, a Streamlit app that
loads a male and a female population spreadsheet, intersects their
country/year key spaces, and renders population pyramids with summary tables.

Modelling conventions:
* `pandas` data frames are modelled by `Table`: a list of (stripped) column
  names plus typed rows (the identifying column and `Year` as fields,
  age-band cells as an association list of rational counts).
* Python floats are modelled by `ℚ`; a raised exception is an
  `Except.error` carrying the message.
* Presentation-only details of the matplotlib figure (colors, grid, tick
  label strings, per-bar text) are outside the model; the numeric content
  of the figure (bar values, axis limits, title data and the totals box) is
  modelled.
-/

namespace PopPyramid

/-- Python `s.isdigit()` on the character list of a string: nonempty and all
characters digits. -/
def py_isdigit (s : List Char) : Bool := !s.isEmpty && s.all (fun ch => ch.isDigit)

/-- Line 36 in `load_population_data`: a column name is an age column when
`c.split('-')[0].isdigit() or c.startswith('100')`.  `split('-')[0]` is the
portion of the string before the first hyphen (the whole string when there is
no hyphen), and `startswith('100')` compares the first three characters. -/
def is_age_col (c : String) : Bool :=
  py_isdigit (c.toList.takeWhile (fun ch => ch != '-')) || c.toList.take 3 == ['1', '0', '0']

/-- The age-column detection applied to all column names (line 36). -/
def detect_age_cols (cols : List String) : List String := cols.filter is_age_col

/-- A spreadsheet cell in a count column: a numeric value, or a value that
`pd.to_numeric(..., errors='coerce')` turns into `NaN` (a non-numeric string
or a missing value). -/
inductive Cell where
  | num : ℚ → Cell
  | nonNumeric : Cell
deriving DecidableEq

/-- Model of `pd.to_numeric(x, errors='coerce').fillna(0)` (lines 108–109): numeric
values pass through, everything else becomes `0`. -/
def coerce_fill_zero : Cell → ℚ
  | .num q => q
  | .nonNumeric => 0

/-- The identifying column name used throughout the script. -/
def region_col_name : String := "Region, subregion, country or area *"

/-- One data row: the identifying column, the `Year` column and the age-band
cells (label → numeric count).  Rows of the expected spreadsheets carry
numeric counts in their age-band columns. -/
structure Row where
  region : String
  year : Int
  cells : List (String × ℚ)
deriving DecidableEq

/-- A loaded data frame: its column names and its rows. -/
structure Table where
  colNames : List String
  rows : List Row
deriving DecidableEq

/-- Selection in the style of `row[age_cols]` (lines 240–241): read the given
columns out of a row, in order.  A requested label absent from the row raises
a `KeyError`, as the pandas column selection does. -/
def Row.select (r : Row) (cols : List String) : Except String (List ℚ) :=
  match cols with
  | [] => .ok []
  | c :: cs =>
    match r.cells.lookup c, Row.select r cs with
    | some v, .ok vs => .ok (v :: vs)
    | none, _ => .error ("KeyError: " ++ c ++ " not in index")
    | some _, .error e => .error e

/-- Access to `df["Region, subregion, country or area *"]` (lines 154–155): the
column's values, or a `KeyError` when the column is missing. -/
def Table.getRegionCol (t : Table) : Except String (List String) :=
  if region_col_name ∈ t.colNames then .ok (t.rows.map Row.region)
  else .error ("KeyError: " ++ region_col_name)

/-- Access to `df["Year"]` (lines 158–159): the year column, or a `KeyError`. -/
def Table.getYearCol (t : Table) : Except String (List Int) :=
  if "Year" ∈ t.colNames then .ok (t.rows.map Row.year)
  else .error "KeyError: Year"

/-- An uploaded file: unreadable (`pd.read_excel` raises), or readable with
the table that parsing after the fixed 16-row header skip produces. -/
inductive UploadedFile where
  | unreadable : UploadedFile
  | readable : Table → UploadedFile

/-- Python `s.strip()`: drop leading and trailing whitespace. -/
def py_strip (s : String) : String :=
  ⟨((s.toList.dropWhile Char.isWhitespace).reverse.dropWhile Char.isWhitespace).reverse⟩

/-- The column-name cleaning of `load_population_data` (line 33):
`df.columns.astype(str).str.strip()`, applied to the column names and to the
labels keying each row's cells. -/
def load_clean (t : Table) : Table :=
  { colNames := t.colNames.map py_strip,
    rows := t.rows.map (fun r => { r with cells := r.cells.map (fun p => (py_strip p.1, p.2)) }) }

/-- Model of `load_population_data` (lines 30–38): read the spreadsheet, clean the
column names, detect the age columns. -/
def load_population_data : UploadedFile → Except String (Table × List String)
  | .unreadable => .error "Error loading files: unreadable file"
  | .readable t => .ok (load_clean t, detect_age_cols (load_clean t).colNames)

/-- The `numpy` reduction `arr.min()`: raises `ValueError` on an empty
array. -/
def npMin (l : List ℚ) : Except String ℚ :=
  match l with
  | [] => .error "zero-size array to reduction operation minimum which has no identity"
  | x :: xs => .ok (xs.foldl min x)

/-- The `numpy` reduction `arr.max()`: raises `ValueError` on an empty
array. -/
def npMax (l : List ℚ) : Except String ℚ :=
  match l with
  | [] => .error "zero-size array to reduction operation maximum which has no identity"
  | x :: xs => .ok (xs.foldl max x)

/-- The totals box drawn at lines 93–99: each figure paired with the unit
suffix its format string appends to it. -/
structure SummaryBox where
  total_val : ℚ
  total_unit : String
  male_val : ℚ
  male_unit : String
  female_val : ℚ
  female_unit : String
deriving DecidableEq, Inhabited

/-- The numeric content of the matplotlib figure built by
`create_population_pyramid`. -/
structure PyramidFig where
  y_pos : List Nat
  male_values : List ℚ
  female_values : List ℚ
  age_groups : List String
  country : String
  year : Int
  xlim_lo : ℚ
  xlim_hi : ℚ
  interactive : Bool
  box : SummaryBox
deriving DecidableEq, Inhabited

/-- Model of `create_population_pyramid` (lines 41–102): negate and scale the male
counts (`-male_data.values / 1000`), scale the female counts
(`female_data.values / 1000`), draw one horizontal bar per age band, set the
symmetric axis limits from `max(abs(male_values.min()), female_values.max())`
(a `ValueError` on an empty vector, raised for the male side first), and draw
the totals box of lines 93–99. -/
def create_population_pyramid (male_data female_data : List ℚ) (age_groups : List String)
    (country : String) (year : Int) (interactive : Bool) : Except String PyramidFig :=
  let y_pos := List.range age_groups.length
  let male_values := male_data.map (fun v => -(v / 1000))
  let female_values := female_data.map (fun v => v / 1000)
  match npMin male_values, npMax female_values with
  | .error e, _ => .error e
  | .ok _, .error e => .error e
  | .ok mn, .ok mx =>
    let max_val := max |mn| mx
    let total_male := |male_values.sum|
    let total_female := female_values.sum
    .ok { y_pos := y_pos, male_values := male_values, female_values := female_values,
          age_groups := age_groups, country := country, year := year,
          xlim_lo := -max_val * 1.15, xlim_hi := max_val * 1.15,
          interactive := interactive,
          box := { total_val := total_male + total_female, total_unit := "k",
                   male_val := total_male, male_unit := "k",
                   female_val := total_female, female_unit := "million" } }

/-- One row of the summary table of `create_data_table` (lines 111–116). -/
structure TableRow where
  age_group : String
  male : ℚ
  female : ℚ
  total : ℚ
deriving DecidableEq

/-- The data-frame rows of `create_data_table`: one row per age band in input
order, with `Total = Male + Female`. -/
def buildRows : List String → List ℚ → List ℚ → List TableRow
  | a :: as, m :: ms, f :: fs =>
    { age_group := a, male := m, female := f, total := m + f } :: buildRows as ms fs
  | _, _, _ => []

/-- Model of `create_data_table` (lines 105–117): coerce both count vectors to
numbers (non-numeric and missing values become `0`) and build the
Age Group / Male / Female / Total rows.  `country` and `year` are accepted
and unused, as in the source. -/
def create_data_table (male_data female_data : List Cell) (age_groups : List String)
    (country : String) (year : Int) : List TableRow :=
  let male_vals := male_data.map coerce_fill_zero
  let female_vals := female_data.map coerce_fill_zero
  buildRows age_groups male_vals female_vals

/-- Model of `sorted(list(set(xs) & set(ys)))` for string keys (line 156). -/
def sorted_common_strs (xs ys : List String) : List String :=
  (xs.toFinset ∩ ys.toFinset).sort (· ≤ ·)

/-- Model of `sorted(list(set(xs) & set(ys)))` for integer keys (line 160). -/
def sorted_common_ints (xs ys : List Int) : List Int :=
  (xs.toFinset ∩ ys.toFinset).sort (· ≤ ·)

/-- Countries present in both tables, sorted ascending (lines 154–156). -/
def common_countries (a b : Table) : List String :=
  sorted_common_strs (a.rows.map Row.region) (b.rows.map Row.region)

/-- Years present in both tables, sorted ascending (lines 158–160). -/
def common_years (a b : Table) : List Int :=
  sorted_common_ints (a.rows.map Row.year) (b.rows.map Row.year)

/-- The session state initialised at lines 14–27 (the fields the load step
touches). -/
structure SessionState where
  male_df : Option Table
  female_df : Option Table
  age_cols : Option (List String)
  countries : List String
  years : List Int
deriving DecidableEq

/-- The initial session state (lines 14–27). -/
def init_state : SessionState :=
  { male_df := none, female_df := none, age_cols := none, countries := [], years := [] }

/-- What the upload step reports: `st.success` with the two counts, or
`st.error` with the exception's message. -/
inductive Report where
  | success : Nat → Nat → Report
  | error : String → Report
deriving DecidableEq

/-- The upload-processing block (lines 140–168): load both files, store both
tables and the male file's age columns in the session state, compute the
common countries and years, store them, and report success; any raised
exception is caught and reported as an error, leaving the state as it was at
the point the exception was raised. -/
def process_uploads (s : SessionState) (male_file female_file : UploadedFile) :
    SessionState × Report :=
  match load_population_data male_file with
  | .error e => (s, .error e)
  | .ok (male_df, male_age_cols) =>
    match load_population_data female_file with
    | .error e => (s, .error e)
    | .ok (female_df, _female_age_cols) =>
      let s1 := { s with male_df := some male_df, female_df := some female_df,
                         age_cols := some male_age_cols }
      match male_df.getRegionCol with
      | .error e => (s1, .error e)
      | .ok mc =>
        match female_df.getRegionCol with
        | .error e => (s1, .error e)
        | .ok fc =>
          let cs := sorted_common_strs mc fc
          match male_df.getYearCol with
          | .error e => (s1, .error e)
          | .ok my =>
            match female_df.getYearCol with
            | .error e => (s1, .error e)
            | .ok fy =>
              let ys := sorted_common_ints my fy
              ({ s1 with countries := cs, years := ys }, .success cs.length ys.length)

/-- Both identifying columns present in a (cleaned) table. -/
def required_cols (t : Table) : Prop :=
  region_col_name ∈ t.colNames ∧ "Year" ∈ t.colNames

instance (t : Table) : Decidable (required_cols t) := by
  unfold required_cols
  infer_instance

/-- A user selection (country, year) (lines 201–204). -/
structure Selection where
  country : String
  year : Int
deriving DecidableEq

/-- The row filter of lines 229–237: exact match on both keys at once. -/
def row_match (country : String) (year : Int) (r : Row) : Bool :=
  r.region == country && r.year == year

/-- Condition `not male_row.empty and not female_row.empty` (line 239). -/
def resolvable (male_df female_df : Table) (sel : Selection) : Bool :=
  !(male_df.rows.filter (row_match sel.country sel.year)).isEmpty &&
  !(female_df.rows.filter (row_match sel.country sel.year)).isEmpty

/-- Every row of the table carries all the given age columns — the loader's
invariant for valid spreadsheets (consistent labels across rows), under
which the column selection of lines 240–241 cannot raise. -/
def has_age_cols (t : Table) (acs : List String) : Prop :=
  ∀ r ∈ t.rows, ∀ c ∈ acs, (r.cells.lookup c).isSome = true

instance (t : Table) (acs : List String) : Decidable (has_age_cols t acs) := by
  unfold has_age_cols
  infer_instance

/-- One generated pyramid (lines 262–267). -/
structure PyramidResult where
  fig : PyramidFig
  country : String
  year : Int
  table : List TableRow
deriving DecidableEq

/-- The "Generate Pyramids" loop (lines 221–269): for each selection in
order, filter both tables on (country, year); when both filters are
nonempty, select the age columns out of the first matching rows (`iloc[0]`,
male then female), build the pyramid and the data table and append the
result, otherwise report a warning for the selection and continue.  The loop
body has no exception handler, so an exception raised by the column
selection or while building a pyramid aborts the whole batch. -/
def generate_pyramids (male_df female_df : Table) (age_cols : List String) (show_values : Bool) :
    List Selection → Except String (List PyramidResult × List (String × Int))
  | [] => .ok ([], [])
  | sel :: rest =>
    match male_df.rows.filter (row_match sel.country sel.year),
          female_df.rows.filter (row_match sel.country sel.year) with
    | mr :: _, fr :: _ =>
      match mr.select age_cols with
      | .error e => .error e
      | .ok male_data =>
        match fr.select age_cols with
        | .error e => .error e
        | .ok female_data =>
          match create_population_pyramid male_data female_data age_cols
                  sel.country sel.year show_values with
          | .error e => .error e
          | .ok fig =>
            match generate_pyramids male_df female_df age_cols show_values rest with
            | .error e => .error e
            | .ok (res, warns) =>
              .ok ({ fig := fig, country := sel.country, year := sel.year,
                     table := create_data_table (male_data.map Cell.num)
                               (female_data.map Cell.num) age_cols sel.country sel.year }
                   :: res, warns)
    | _, _ =>
      match generate_pyramids male_df female_df age_cols show_values rest with
      | .error e => .error e
      | .ok (res, warns) => .ok (res, (sel.country, sel.year) :: warns)

/-- The spec's age-band rule, stated independently of the implementation:
the substring before the first hyphen (a hyphen-free prefix followed by
nothing or by a hyphen) is entirely numeric, or the name starts with
"100". -/
def spec_age_band (c : String) : Prop :=
  (∃ pre rest, c.toList = pre ++ rest ∧ pre ≠ [] ∧ (∀ ch ∈ pre, ch.isDigit) ∧
    (∀ ch ∈ pre, ch ≠ '-') ∧ (rest = [] ∨ ∃ t, rest = '-' :: t)) ∨
  (∃ t, c.toList = '1' :: '0' :: '0' :: t)

/-! Concrete example data, used by the witness theorems -/

/-- A small male table shaped like the expected spreadsheets. -/
def male_table_ex : Table :=
  { colNames := [region_col_name, "Year", "0-4", "5-9"],
    rows := [{ region := "Albania", year := 2020, cells := [("0-4", 10), ("5-9", 20)] }] }

/-- A small female table sharing the male table's age labels. -/
def female_table_ex : Table :=
  { colNames := [region_col_name, "Year", "0-4", "5-9"],
    rows := [{ region := "Albania", year := 2020, cells := [("0-4", 5), ("5-9", 25)] }] }

/-- A female table whose age-band labels differ from the male table's. -/
def female_table_alt : Table :=
  { colNames := [region_col_name, "Year", "0-14", "15-29"],
    rows := [{ region := "Albania", year := 2020, cells := [("0-14", 7), ("15-29", 8)] }] }

/-- A female table missing the identifying region column. -/
def c8_female_table : Table :=
  { colNames := ["Country", "Year", "0-4"], rows := [] }

/-- The figure the renderer produces for counts `[10]` / `[5]`. -/
def c2_fig : PyramidFig :=
  ((create_population_pyramid [10] [5] ["0-4"] "Albania" 2020 true).toOption).getD default

/-- The figure the renderer produces for counts `[10, 20]` / `[5, 25]`. -/
def c3_fig : PyramidFig :=
  ((create_population_pyramid [10, 20] [5, 25] ["0-4", "5-9"] "Albania" 2021 false).toOption).getD
    default

/-- The minimum of `c3_fig`'s plotted male values. -/
def c3_mn : ℚ := ((npMin c3_fig.male_values).toOption).getD 0

/-- The maximum of `c3_fig`'s plotted female values. -/
def c3_mx : ℚ := ((npMax c3_fig.female_values).toOption).getD 0

/-! Helper lemmas -/

lemma dropWhile_shape (p : Char → Bool) (l : List Char) :
    l.dropWhile p = [] ∨ ∃ a t, l.dropWhile p = a :: t ∧ p a = false := by
  induction l with
  | nil => exact Or.inl rfl
  | cons a t ih =>
    by_cases h : p a
    · rw [List.dropWhile_cons, if_pos h]
      exact ih
    · rw [List.dropWhile_cons, if_neg h]
      exact Or.inr ⟨a, t, rfl, by simpa using h⟩

lemma takeWhile_of_append (p : Char → Bool) (pre rest : List Char)
    (hpre : ∀ a ∈ pre, p a = true)
    (hrest : rest = [] ∨ ∃ a t, rest = a :: t ∧ p a = false) :
    (pre ++ rest).takeWhile p = pre := by
  induction pre with
  | nil =>
    simp only [List.nil_append]
    rcases hrest with rfl | ⟨a, t, rfl, ha⟩
    · rfl
    · rw [List.takeWhile_cons, if_neg (by simp [ha])]
  | cons b bs ih =>
    have hb : p b = true := hpre b (List.mem_cons_self b bs)
    rw [List.cons_append, List.takeWhile_cons, if_pos hb,
      ih (fun a ha => hpre a (List.mem_cons_of_mem _ ha))]

lemma take_three_eq (l : List Char) :
    (l.take 3 == ['1', '0', '0']) = true ↔ ∃ t, l = '1' :: '0' :: '0' :: t := by
  constructor
  · intro h
    rw [beq_iff_eq] at h
    rcases l with _ | ⟨a, _ | ⟨b, _ | ⟨c, t⟩⟩⟩
    · simp at h
    · simp [List.take] at h
    · simp [List.take] at h
    · simp only [List.take_succ_cons, List.take_zero, List.cons.injEq, and_true] at h
      obtain ⟨rfl, rfl, rfl⟩ := h
      exact ⟨t, rfl⟩
  · rintro ⟨t, rfl⟩
    rfl

lemma buildRows_spec (as : List String) (ms fs : List ℚ)
    (hm : ms.length = as.length) (hf : fs.length = as.length) :
    (buildRows as ms fs).map TableRow.age_group = as ∧
    (buildRows as ms fs).map TableRow.male = ms ∧
    (buildRows as ms fs).map TableRow.female = fs ∧
    ∀ r ∈ buildRows as ms fs, r.total = r.male + r.female := by
  induction as generalizing ms fs with
  | nil =>
    have hms : ms = [] := List.length_eq_zero.mp hm
    have hfs : fs = [] := List.length_eq_zero.mp hf
    subst hms; subst hfs
    exact ⟨rfl, rfl, rfl, by intro r hr; simp [buildRows] at hr⟩
  | cons a as ih =>
    rcases ms with _ | ⟨m, ms⟩
    · simp at hm
    rcases fs with _ | ⟨f, fs⟩
    · simp at hf
    have hm' : ms.length = as.length := by simpa using hm
    have hf' : fs.length = as.length := by simpa using hf
    obtain ⟨h1, h2, h3, h4⟩ := ih ms fs hm' hf'
    refine ⟨?_, ?_, ?_, ?_⟩
    · simp [buildRows, h1]
    · simp [buildRows, h2]
    · simp [buildRows, h3]
    · intro r hr
      simp only [buildRows, List.mem_cons] at hr
      rcases hr with rfl | hr
      · rfl
      · exact h4 r hr

lemma cpp_ok (md fd : List ℚ) (ag : List String) (c : String) (y : Int) (i : Bool)
    (hm : md ≠ []) (hf : fd ≠ []) :
    ∃ fig, create_population_pyramid md fd ag c y i = .ok fig ∧ fig.age_groups = ag := by
  rcases md with _ | ⟨m, ms⟩
  · exact absurd rfl hm
  rcases fd with _ | ⟨f, fs⟩
  · exact absurd rfl hf
  exact ⟨_, rfl, rfl⟩

lemma select_ok_of_has (r : Row) (cols : List String)
    (h : ∀ c ∈ cols, (r.cells.lookup c).isSome = true) :
    ∃ vals, r.select cols = .ok vals ∧ vals.length = cols.length := by
  induction cols with
  | nil => exact ⟨[], rfl, rfl⟩
  | cons c cs ih =>
    obtain ⟨v, hv⟩ := Option.isSome_iff_exists.mp (h c (List.mem_cons_self c cs))
    obtain ⟨vals, hok, hlen⟩ := ih (fun x hx => h x (List.mem_cons_of_mem _ hx))
    refine ⟨v :: vals, ?_, by simp [hlen]⟩
    simp only [Row.select, hv, hok]

lemma data_table_age_col (male_data female_data : List ℚ) (acs : List String) (c : String)
    (y : Int) (hm : male_data.length = acs.length) (hf : female_data.length = acs.length) :
    (create_data_table (male_data.map Cell.num) (female_data.map Cell.num)
      acs c y).map TableRow.age_group = acs := by
  have := buildRows_spec acs ((male_data.map Cell.num).map coerce_fill_zero)
    ((female_data.map Cell.num).map coerce_fill_zero)
    (by simpa using hm) (by simpa using hf)
  simpa [create_data_table] using this.1

lemma process_uploads_success (s : SessionState) (mt ft : Table)
    (hmt : required_cols (load_clean mt)) (hft : required_cols (load_clean ft)) :
    process_uploads s (.readable mt) (.readable ft) =
      ({ s with male_df := some (load_clean mt), female_df := some (load_clean ft),
                age_cols := some (detect_age_cols (load_clean mt).colNames),
                countries := sorted_common_strs ((load_clean mt).rows.map Row.region)
                  ((load_clean ft).rows.map Row.region),
                years := sorted_common_ints ((load_clean mt).rows.map Row.year)
                  ((load_clean ft).rows.map Row.year) },
       .success (sorted_common_strs ((load_clean mt).rows.map Row.region)
           ((load_clean ft).rows.map Row.region)).length
         (sorted_common_ints ((load_clean mt).rows.map Row.year)
           ((load_clean ft).rows.map Row.year)).length) := by
  obtain ⟨hr1, hy1⟩ := hmt
  obtain ⟨hr2, hy2⟩ := hft
  simp [process_uploads, load_population_data, Table.getRegionCol, Table.getYearCol,
    hr1, hr2, hy1, hy2]

lemma generate_pyramids_run (male_df female_df : Table) (acs : List String) (sv : Bool)
    (h : acs ≠ []) (hmc : has_age_cols male_df acs) (hfc : has_age_cols female_df acs)
    (sels : List Selection) :
    ∃ res warns,
      generate_pyramids male_df female_df acs sv sels = .ok (res, warns) ∧
      warns = (sels.filter (fun sel => !(resolvable male_df female_df sel))).map
        (fun sel => (sel.country, sel.year)) ∧
      res.map (fun r => (r.country, r.year)) = (sels.filter (resolvable male_df female_df)).map
        (fun sel => (sel.country, sel.year)) ∧
      ∀ r ∈ res, r.fig.age_groups = acs ∧ r.table.map TableRow.age_group = acs := by
  induction sels with
  | nil => exact ⟨[], [], rfl, rfl, rfl, by intro r hr; simp at hr⟩
  | cons sel rest ih =>
    obtain ⟨res, warns, hgen, hw, hr, hall⟩ := ih
    cases hmr : male_df.rows.filter (row_match sel.country sel.year) with
    | nil =>
      have hres : resolvable male_df female_df sel = false := by
        simp [resolvable, hmr]
      refine ⟨res, (sel.country, sel.year) :: warns, ?_, ?_, ?_, hall⟩
      · simp only [generate_pyramids, hmr, hgen]
      · simp [List.filter_cons, hres, hw]
      · simp [List.filter_cons, hres, hr]
    | cons mr mtl =>
      cases hfr : female_df.rows.filter (row_match sel.country sel.year) with
      | nil =>
        have hres : resolvable male_df female_df sel = false := by
          simp [resolvable, hfr]
        refine ⟨res, (sel.country, sel.year) :: warns, ?_, ?_, ?_, hall⟩
        · simp only [generate_pyramids, hmr, hfr, hgen]
        · simp [List.filter_cons, hres, hw]
        · simp [List.filter_cons, hres, hr]
      | cons fr ftl =>
        have hres : resolvable male_df female_df sel = true := by
          simp [resolvable, hmr, hfr]
        have hmrmem : mr ∈ male_df.rows :=
          List.mem_of_mem_filter (by rw [hmr]; exact List.mem_cons_self mr mtl)
        have hfrmem : fr ∈ female_df.rows :=
          List.mem_of_mem_filter (by rw [hfr]; exact List.mem_cons_self fr ftl)
        obtain ⟨mvals, hmok, hmlen⟩ := select_ok_of_has mr acs (fun c hc => hmc mr hmrmem c hc)
        obtain ⟨fvals, hfok, hflen⟩ := select_ok_of_has fr acs (fun c hc => hfc fr hfrmem c hc)
        have hpos : 0 < acs.length := List.length_pos.mpr h
        have hmne : mvals ≠ [] := List.length_pos.mp (by rw [hmlen]; exact hpos)
        have hfne : fvals ≠ [] := List.length_pos.mp (by rw [hflen]; exact hpos)
        obtain ⟨fig, hfig, hag⟩ := cpp_ok mvals fvals acs sel.country sel.year sv hmne hfne
        refine ⟨{ fig := fig, country := sel.country, year := sel.year,
                  table := create_data_table (mvals.map Cell.num)
                    (fvals.map Cell.num) acs sel.country sel.year } :: res,
                warns, ?_, ?_, ?_, ?_⟩
        · simp only [generate_pyramids, hmr, hfr, hmok, hfok, hfig, hgen]
        · simp [List.filter_cons, hres, hw]
        · simp [List.filter_cons, hres, hr]
        · intro r hrr
          rcases List.mem_cons.mp hrr with rfl | hrr
          · exact ⟨hag, data_table_age_col mvals fvals acs sel.country sel.year hmlen hflen⟩
          · exact hall r hrr

/-! Claim theorems -/

/-- C6: a column is detected as an age-band column iff the substring before
its first hyphen is entirely numeric or the column name starts with "100";
on the columns `["0-4","5-9","100+","Region...","Year"]` exactly
`["0-4","5-9","100+"]` are detected. -/
theorem c6_age_band_detection :
    (∀ c : String, is_age_col c = true ↔ spec_age_band c) ∧
    detect_age_cols ["0-4", "5-9", "100+", "Region, subregion, country or area *", "Year"]
      = ["0-4", "5-9", "100+"] := by
  constructor
  · intro c
    unfold is_age_col spec_age_band
    constructor
    · intro h
      rw [Bool.or_eq_true] at h
      rcases h with h | h
      · left
        rw [py_isdigit, Bool.and_eq_true] at h
        obtain ⟨h1, h2⟩ := h
        refine ⟨c.toList.takeWhile (fun ch => ch != '-'),
          c.toList.dropWhile (fun ch => ch != '-'),
          (List.takeWhile_append_dropWhile _ _).symm, ?_, ?_, ?_, ?_⟩
        · intro hnil
          rw [hnil] at h1
          simp at h1
        · intro ch hch
          exact List.all_eq_true.mp h2 ch hch
        · intro ch hch
          simpa using List.mem_takeWhile_imp hch
        · rcases dropWhile_shape (fun ch => ch != '-') c.toList with h0 | ⟨a, t, heq, ha⟩
          · exact Or.inl h0
          · right
            have haeq : a = '-' := by simpa using ha
            exact ⟨t, by rw [heq, haeq]⟩
      · right
        exact (take_three_eq _).mp h
    · rintro (⟨pre, rest, hl, hne, hdig, hnh, hrest⟩ | ⟨t, ht⟩)
      · rw [Bool.or_eq_true]
        left
        have htw : (c.toList).takeWhile (fun ch => ch != '-') = pre := by
          rw [hl]
          refine takeWhile_of_append _ pre rest (fun a ha => by simpa using hnh a ha) ?_
          rcases hrest with rfl | ⟨t, rfl⟩
          · exact Or.inl rfl
          · exact Or.inr ⟨'-', t, rfl, by simp⟩
        rw [htw, py_isdigit, Bool.and_eq_true]
        refine ⟨by simpa using hne, List.all_eq_true.mpr (fun x hx => hdig x hx)⟩
      · rw [Bool.or_eq_true]
        right
        exact (take_three_eq _).mpr ⟨t, ht⟩
  · decide

/-- C7: the keyspace intersection is symmetric, a subset of each input
table's key set, and returned sorted ascending (strictly, since the values
are deduplicated) for countries and for years. -/
theorem c7_intersector_symm_subset_sorted (a b : Table) :
    common_countries a b = common_countries b a ∧
    common_years a b = common_years b a ∧
    (∀ x ∈ common_countries a b, x ∈ a.rows.map Row.region ∧ x ∈ b.rows.map Row.region) ∧
    (∀ y ∈ common_years a b, y ∈ a.rows.map Row.year ∧ y ∈ b.rows.map Row.year) ∧
    List.Sorted (· < ·) (common_countries a b) ∧
    List.Sorted (· < ·) (common_years a b) := by
  refine ⟨?_, ?_, ?_, ?_, ?_, ?_⟩
  · unfold common_countries sorted_common_strs
    rw [Finset.inter_comm]
  · unfold common_years sorted_common_ints
    rw [Finset.inter_comm]
  · intro x hx
    unfold common_countries sorted_common_strs at hx
    rw [Finset.mem_sort, Finset.mem_inter, List.mem_toFinset, List.mem_toFinset] at hx
    exact hx
  · intro y hy
    unfold common_years sorted_common_ints at hy
    rw [Finset.mem_sort, Finset.mem_inter, List.mem_toFinset, List.mem_toFinset] at hy
    exact hy
  · unfold common_countries sorted_common_strs
    exact Finset.sort_sorted_lt _
  · unfold common_years sorted_common_ints
    exact Finset.sort_sorted_lt _

/-- C5: the formatter keeps the age labels in input order, coerces
non-numeric and missing counts to zero, and every row's Total equals
Male + Female. -/
theorem c5_formatter_totals (male_data female_data : List Cell) (age_groups : List String)
    (c : String) (y : Int)
    (hm : male_data.length = age_groups.length) (hf : female_data.length = age_groups.length) :
    (create_data_table male_data female_data age_groups c y).map TableRow.age_group
      = age_groups ∧
    (create_data_table male_data female_data age_groups c y).map TableRow.male
      = male_data.map coerce_fill_zero ∧
    (create_data_table male_data female_data age_groups c y).map TableRow.female
      = female_data.map coerce_fill_zero ∧
    (∀ r ∈ create_data_table male_data female_data age_groups c y,
      r.total = r.male + r.female) ∧
    coerce_fill_zero Cell.nonNumeric = 0 := by
  have hb := buildRows_spec age_groups (male_data.map coerce_fill_zero)
    (female_data.map coerce_fill_zero) (by simpa using hm) (by simpa using hf)
  refine ⟨?_, ?_, ?_, ?_, rfl⟩
  · simpa [create_data_table] using hb.1
  · simpa [create_data_table] using hb.2.1
  · simpa [create_data_table] using hb.2.2.1
  · simpa [create_data_table] using hb.2.2.2

/-- Witness for C5 at a concrete input containing non-numeric cells. -/
theorem c5_formatter_totals_witness :
    ([Cell.num 3, Cell.nonNumeric] : List Cell).length
      = (["0-4", "5-9"] : List String).length ∧
    ([Cell.nonNumeric, Cell.num 4] : List Cell).length
      = (["0-4", "5-9"] : List String).length ∧
    ((create_data_table [Cell.num 3, Cell.nonNumeric] [Cell.nonNumeric, Cell.num 4]
        ["0-4", "5-9"] "Albania" 2020).map TableRow.age_group = ["0-4", "5-9"] ∧
      (create_data_table [Cell.num 3, Cell.nonNumeric] [Cell.nonNumeric, Cell.num 4]
        ["0-4", "5-9"] "Albania" 2020).map TableRow.male
        = [Cell.num 3, Cell.nonNumeric].map coerce_fill_zero ∧
      (create_data_table [Cell.num 3, Cell.nonNumeric] [Cell.nonNumeric, Cell.num 4]
        ["0-4", "5-9"] "Albania" 2020).map TableRow.female
        = [Cell.nonNumeric, Cell.num 4].map coerce_fill_zero ∧
      (∀ r ∈ create_data_table [Cell.num 3, Cell.nonNumeric] [Cell.nonNumeric, Cell.num 4]
        ["0-4", "5-9"] "Albania" 2020, r.total = r.male + r.female) ∧
      coerce_fill_zero Cell.nonNumeric = 0) :=
  ⟨rfl, rfl, c5_formatter_totals [Cell.num 3, Cell.nonNumeric] [Cell.nonNumeric, Cell.num 4]
    ["0-4", "5-9"] "Albania" 2020 rfl rfl⟩

/-- C4: in a generation batch whose tables carry the requested age columns
in every row (the loader's invariant for valid files), every selection
without a matching row in the male or the female table contributes exactly
one warning and no result, the batch never raises, and all other selections
are processed in order. -/
theorem c4_notfound_warns_batch_continues (male_df female_df : Table) (acs : List String)
    (sv : Bool) (sels : List Selection) (h : acs ≠ [])
    (hmc : has_age_cols male_df acs) (hfc : has_age_cols female_df acs) :
    ∃ res warns,
      generate_pyramids male_df female_df acs sv sels = .ok (res, warns) ∧
      warns = (sels.filter (fun sel => !(resolvable male_df female_df sel))).map
        (fun sel => (sel.country, sel.year)) ∧
      res.map (fun r => (r.country, r.year)) = (sels.filter (resolvable male_df female_df)).map
        (fun sel => (sel.country, sel.year)) := by
  obtain ⟨res, warns, h1, h2, h3, _⟩ :=
    generate_pyramids_run male_df female_df acs sv h hmc hfc sels
  exact ⟨res, warns, h1, h2, h3⟩

/-- Witness for C4: a batch with one resolvable and one unresolvable
selection. -/
theorem c4_notfound_warns_batch_continues_witness :
    (["0-4", "5-9"] : List String) ≠ [] ∧
    has_age_cols male_table_ex ["0-4", "5-9"] ∧
    has_age_cols female_table_ex ["0-4", "5-9"] ∧
    ∃ res warns,
      generate_pyramids male_table_ex female_table_ex ["0-4", "5-9"] true
        [⟨"Albania", 2020⟩, ⟨"Albania", 1999⟩] = .ok (res, warns) ∧
      warns = (([⟨"Albania", 2020⟩, ⟨"Albania", 1999⟩] : List Selection).filter
          (fun sel => !(resolvable male_table_ex female_table_ex sel))).map
        (fun sel => (sel.country, sel.year)) ∧
      res.map (fun r => (r.country, r.year))
        = (([⟨"Albania", 2020⟩, ⟨"Albania", 1999⟩] : List Selection).filter
            (resolvable male_table_ex female_table_ex)).map
          (fun sel => (sel.country, sel.year)) :=
  ⟨by decide, by decide, by decide,
    c4_notfound_warns_batch_continues male_table_ex female_table_ex ["0-4", "5-9"]
      true [⟨"Albania", 2020⟩, ⟨"Albania", 1999⟩] (by decide) (by decide) (by decide)⟩

/-- C2: every figure's totals box computes total, male and female on the
same scale (the sums of the plotted thousands-scale values, the total being
male + female), yet suffixes the female sub-total with "million" while the
total and the male sub-total keep the "k" suffix. -/
theorem c2_totals_box_unit_mismatch (md fd : List ℚ) (ag : List String) (c : String)
    (y : Int) (i : Bool) (fig : PyramidFig)
    (h : create_population_pyramid md fd ag c y i = Except.ok fig) :
    fig.box.total_unit = "k" ∧ fig.box.male_unit = "k" ∧ fig.box.female_unit = "million" ∧
    fig.box.male_val = |(md.map (fun v => -(v / 1000))).sum| ∧
    fig.box.female_val = (fd.map (fun v => v / 1000)).sum ∧
    fig.box.total_val = fig.box.male_val + fig.box.female_val := by
  simp only [create_population_pyramid] at h
  split at h
  · simp at h
  · simp at h
  · rw [Except.ok.injEq] at h
    subst h
    exact ⟨rfl, rfl, rfl, rfl, rfl, rfl⟩

/-- Witness for C2 at counts `[10]` / `[5]`. -/
theorem c2_totals_box_unit_mismatch_witness :
    c2_fig.box.total_unit = "k" ∧ c2_fig.box.male_unit = "k" ∧
    c2_fig.box.female_unit = "million" ∧
    c2_fig.box.male_val = |(([10] : List ℚ).map (fun v => -(v / 1000))).sum| ∧
    c2_fig.box.female_val = (([5] : List ℚ).map (fun v => v / 1000)).sum ∧
    c2_fig.box.total_val = c2_fig.box.male_val + c2_fig.box.female_val :=
  c2_totals_box_unit_mismatch [10] [5] ["0-4"] "Albania" 2020 true c2_fig rfl

/-- C3: every figure's x-axis limits are symmetric, both sides equal to
1.15 times the larger of the absolute minimum plotted male value and the
maximum plotted female value. -/
theorem c3_symmetric_axis_limits (md fd : List ℚ) (ag : List String) (c : String)
    (y : Int) (i : Bool) (fig : PyramidFig) (mn mx : ℚ)
    (h : create_population_pyramid md fd ag c y i = Except.ok fig)
    (hmn : npMin fig.male_values = Except.ok mn)
    (hmx : npMax fig.female_values = Except.ok mx) :
    fig.xlim_hi = 1.15 * max |mn| mx ∧ fig.xlim_lo = -fig.xlim_hi := by
  simp only [create_population_pyramid] at h
  split at h
  · simp at h
  · simp at h
  · rename_i mn' mx' hmn' hmx'
    rw [Except.ok.injEq] at h
    subst h
    simp only at hmn hmx
    rw [hmn'] at hmn
    rw [hmx'] at hmx
    rw [Except.ok.injEq] at hmn hmx
    subst hmn
    subst hmx
    constructor
    · exact (mul_comm _ _)
    · ring

/-- Witness for C3 at counts `[10, 20]` / `[5, 25]`. -/
theorem c3_symmetric_axis_limits_witness :
    c3_fig.xlim_hi = 1.15 * max |c3_mn| c3_mx ∧ c3_fig.xlim_lo = -c3_fig.xlim_hi :=
  c3_symmetric_axis_limits [10, 20] [5, 25] ["0-4", "5-9"] "Albania" 2021 false
    c3_fig c3_mn c3_mx rfl rfl rfl

/-- C1 (evaluation at the claimed input): the renderer divides the ingested
counts by 1000 again, so male counts `[10, 20]` and female counts `[5, 25]`
are plotted as `[-10/1000, -20/1000]` and `[5/1000, 25/1000]`, not as the
`[-10, -20]` and `[5, 25]` the specification states. -/
theorem c1_renderer_rescales_counts :
    (create_population_pyramid [10, 20] [5, 25] ["0-4", "5-9"] "Albania" 2020 false).toOption.map
        (fun f => (f.male_values, f.female_values))
      = some ([-(10 / 1000), -(20 / 1000)], [5 / 1000, 25 / 1000]) ∧
    ¬ (create_population_pyramid [10, 20] [5, 25] ["0-4", "5-9"] "Albania" 2020 false).toOption.map
        (fun f => (f.male_values, f.female_values))
      = some ([-10, -20], [5, 25]) := by
  constructor
  · rfl
  · norm_num [create_population_pyramid, npMin, npMax, Except.toOption]

/-- C9 (evaluation at the empty input): with zero age bands the renderer
raises (the `numpy` empty-reduction error propagates out of the generation
handler), while the table formatter returns an empty table. -/
theorem c9_empty_input_renderer_raises :
    create_population_pyramid ([] : List ℚ) [] [] "Albania" 2020 false
      = .error "zero-size array to reduction operation minimum which has no identity" ∧
    create_data_table [] [] [] "Albania" 2020 = [] := ⟨rfl, rfl⟩

/-- C8 counterexample: a female file missing the identifying region column
makes the load fail and the error is reported, yet both tables have already
been published to the session state — partial loaded state is visible. -/
theorem c8_counterexample_partial_state :
    (process_uploads init_state (.readable male_table_ex) (.readable c8_female_table)).2
      = Report.error ("KeyError: " ++ region_col_name) ∧
    (process_uploads init_state (.readable male_table_ex) (.readable c8_female_table)).1.male_df
      ≠ none ∧
    (process_uploads init_state (.readable male_table_ex) (.readable c8_female_table)).1.female_df
      ≠ none := by
  refine ⟨?_, ?_, ?_⟩ <;> decide

/-- C8 amended: when a file is unreadable the error is reported and the
session state is untouched (no partial table); when both files read but an
expected identifying column is missing, the error is reported and the
country/year lists are left as they were, but both loaded tables and the
age-column list have already been published to the session state. -/
theorem c8_amended_load_error_state (s : SessionState) (mt ft : Table) (f : UploadedFile)
    (hmiss : ¬ required_cols (load_clean mt) ∨ ¬ required_cols (load_clean ft)) :
    process_uploads s .unreadable f = (s, .error "Error loading files: unreadable file") ∧
    process_uploads s (.readable mt) .unreadable
      = (s, .error "Error loading files: unreadable file") ∧
    ∃ e, process_uploads s (.readable mt) (.readable ft)
      = ({ s with male_df := some (load_clean mt), female_df := some (load_clean ft),
                  age_cols := some (detect_age_cols (load_clean mt).colNames) },
         .error e) := by
  refine ⟨rfl, rfl, ?_⟩
  by_cases h1 : region_col_name ∈ (load_clean mt).colNames
  · by_cases h2 : region_col_name ∈ (load_clean ft).colNames
    · by_cases h3 : "Year" ∈ (load_clean mt).colNames
      · by_cases h4 : "Year" ∈ (load_clean ft).colNames
        · exfalso
          rcases hmiss with h | h
          · exact h ⟨h1, h3⟩
          · exact h ⟨h2, h4⟩
        · exact ⟨"KeyError: Year", by
            simp [process_uploads, load_population_data, Table.getRegionCol,
              Table.getYearCol, h1, h2, h3, h4]⟩
      · exact ⟨"KeyError: Year", by
          simp [process_uploads, load_population_data, Table.getRegionCol,
            Table.getYearCol, h1, h2, h3]⟩
    · exact ⟨"KeyError: " ++ region_col_name, by
        simp [process_uploads, load_population_data, Table.getRegionCol,
          Table.getYearCol, h1, h2]⟩
  · exact ⟨"KeyError: " ++ region_col_name, by
      simp [process_uploads, load_population_data, Table.getRegionCol,
        Table.getYearCol, h1]⟩

/-- Witness for the amended C8 behaviour at concrete tables. -/
theorem c8_amended_load_error_state_witness :
    (¬ required_cols (load_clean male_table_ex) ∨
      ¬ required_cols (load_clean c8_female_table)) ∧
    (process_uploads init_state .unreadable .unreadable
      = (init_state, .error "Error loading files: unreadable file") ∧
    process_uploads init_state (.readable male_table_ex) .unreadable
      = (init_state, .error "Error loading files: unreadable file") ∧
    ∃ e, process_uploads init_state (.readable male_table_ex) (.readable c8_female_table)
      = ({ init_state with male_df := some (load_clean male_table_ex),
                           female_df := some (load_clean c8_female_table),
                           age_cols := some (detect_age_cols
                             (load_clean male_table_ex).colNames) },
         .error e)) :=
  ⟨Or.inr (by decide), c8_amended_load_error_state init_state male_table_ex c8_female_table
    .unreadable (Or.inr (by decide))⟩

/-- C10: on a successful load the published age-column list is exactly the
one detected from the male file — swapping the female file for one with
different age labels changes nothing and raises no error — and a generation
batch over tables carrying those columns uses that single list as the
age-group axis and the table's Age Group column for every result, for male
and female data alike. -/
theorem c10_male_labels_used_everywhere (s : SessionState) (mt ft ft' : Table)
    (sv : Bool) (sels : List Selection)
    (hmt : required_cols (load_clean mt)) (hft : required_cols (load_clean ft))
    (hft' : required_cols (load_clean ft')) :
    (process_uploads s (.readable mt) (.readable ft)).1.age_cols
      = some (detect_age_cols (load_clean mt).colNames) ∧
    (process_uploads s (.readable mt) (.readable ft')).1.age_cols
      = some (detect_age_cols (load_clean mt).colNames) ∧
    (∃ nc ny, (process_uploads s (.readable mt) (.readable ft)).2 = .success nc ny) ∧
    (∃ nc ny, (process_uploads s (.readable mt) (.readable ft')).2 = .success nc ny) ∧
    (detect_age_cols (load_clean mt).colNames ≠ [] →
      has_age_cols (load_clean mt) (detect_age_cols (load_clean mt).colNames) →
      has_age_cols (load_clean ft) (detect_age_cols (load_clean mt).colNames) →
      ∃ res warns,
        generate_pyramids (load_clean mt) (load_clean ft)
          (detect_age_cols (load_clean mt).colNames) sv sels = .ok (res, warns) ∧
        ∀ r ∈ res, r.fig.age_groups = detect_age_cols (load_clean mt).colNames ∧
          r.table.map TableRow.age_group = detect_age_cols (load_clean mt).colNames) := by
  have hs1 := process_uploads_success s mt ft hmt hft
  have hs2 := process_uploads_success s mt ft' hmt hft'
  refine ⟨?_, ?_, ?_, ?_, ?_⟩
  · rw [hs1]
  · rw [hs2]
  · exact ⟨_, _, congrArg Prod.snd hs1⟩
  · exact ⟨_, _, congrArg Prod.snd hs2⟩
  · intro hne hm1 hf1
    obtain ⟨res, warns, h1, _, _, h4⟩ := generate_pyramids_run (load_clean mt) (load_clean ft)
      (detect_age_cols (load_clean mt).colNames) sv hne hm1 hf1 sels
    exact ⟨res, warns, h1, h4⟩

/-- Witness for C10: female tables with matching and with different age
labels. -/
theorem c10_male_labels_used_everywhere_witness :
    required_cols (load_clean male_table_ex) ∧
    required_cols (load_clean female_table_ex) ∧
    required_cols (load_clean female_table_alt) ∧
    ((process_uploads init_state (.readable male_table_ex) (.readable female_table_ex)).1.age_cols
      = some (detect_age_cols (load_clean male_table_ex).colNames) ∧
    (process_uploads init_state (.readable male_table_ex) (.readable female_table_alt)).1.age_cols
      = some (detect_age_cols (load_clean male_table_ex).colNames) ∧
    (∃ nc ny, (process_uploads init_state (.readable male_table_ex)
      (.readable female_table_ex)).2 = .success nc ny) ∧
    (∃ nc ny, (process_uploads init_state (.readable male_table_ex)
      (.readable female_table_alt)).2 = .success nc ny) ∧
    (detect_age_cols (load_clean male_table_ex).colNames ≠ [] →
      has_age_cols (load_clean male_table_ex)
        (detect_age_cols (load_clean male_table_ex).colNames) →
      has_age_cols (load_clean female_table_ex)
        (detect_age_cols (load_clean male_table_ex).colNames) →
      ∃ res warns,
        generate_pyramids (load_clean male_table_ex) (load_clean female_table_ex)
          (detect_age_cols (load_clean male_table_ex).colNames) true
          [⟨"Albania", 2020⟩] = .ok (res, warns) ∧
        ∀ r ∈ res,
          r.fig.age_groups = detect_age_cols (load_clean male_table_ex).colNames ∧
          r.table.map TableRow.age_group
            = detect_age_cols (load_clean male_table_ex).colNames)) :=
  ⟨by decide, by decide, by decide,
    c10_male_labels_used_everywhere init_state male_table_ex female_table_ex female_table_alt
      true [⟨"Albania", 2020⟩] (by decide) (by decide) (by decide)⟩

end PopPyramid
